import Mathlib

/-!
Verification of the corpus annotation pipeline (lab_6_pipeline/pipeline.py)
and the crawler configuration/entry point (lab_5_scrapper/scrapper.py).

The filesystem is embedded as an explicit state: a path either does not
exist, exists but is not a directory, or is a directory holding a list of
entries, each a file name together with its size in bytes (st_size).
Glob patterns used by the source are embedded by their fnmatch semantics:
a star matches any (possibly empty) character sequence, so the pattern
"*.*" matches exactly the names containing a dot, "*_raw.txt" matches
exactly the names ending in "_raw.txt", and a pattern without wildcards
matches exactly its own name.
-/

/-- Directory entry: file name and its size in bytes (st_size). -/
abbrev DirEntry := String × Nat

/-- State of a filesystem path, as observed by pathlib
(exists / is_dir / directory listing). -/
inductive PathState where
  | missing : PathState
  | nonDirectory : PathState
  | dir (files : List DirEntry) : PathState

/-- Errors that CorpusManager construction can raise.  The source raises
the Python builtins FileNotFoundError / NotADirectoryError and its own
EmptyDirectoryError / InconsistentDatasetError.  The constructor
directoryNotFound stands for the DirectoryNotFoundError named by the
specification; the code never produces it, it is present so that the
specification's sentence can be stated and compared with the code. -/
inductive ValidateError where
  | fileNotFound : ValidateError
  | notADirectory : ValidateError
  | emptyDirectory : ValidateError
  | inconsistentDataset : ValidateError
  | directoryNotFound : ValidateError
deriving DecidableEq, Repr

/-- fnmatch semantics of the glob pattern "*.*": the name contains a dot. -/
def matchesAnyDot (name : String) : Bool :=
  decide ('.' ∈ name.data)

/-- fnmatch semantics of the glob pattern "*_raw.txt". -/
def matchesRawPattern (name : String) : Bool :=
  decide ("_raw.txt".data <:+ name.data)

/-- fnmatch semantics of the glob pattern "*_meta.json". -/
def matchesMetaPattern (name : String) : Bool :=
  decide ("_meta.json".data <:+ name.data)

/-- The exact file name str(i) + "_raw.txt" globbed in the validation loop. -/
def rawNameOf (i : Nat) : String := toString i ++ "_raw.txt"

/-- The exact file name str(i) + "_meta.json" globbed in the validation loop. -/
def metaNameOf (i : Nat) : String := toString i ++ "_meta.json"

/-- Entries matched by glob("*_raw.txt"). -/
def rawFiles (files : List DirEntry) : List DirEntry :=
  files.filter (fun f => matchesRawPattern f.1)

/-- Entries matched by glob("*_meta.json"). -/
def metaFiles (files : List DirEntry) : List DirEntry :=
  files.filter (fun f => matchesMetaPattern f.1)

/-- One iteration of the validation loop of CorpusManager._validate_dataset:
for id i, glob the exact names i_raw.txt and i_meta.json; the pair is
acceptable when both files exist and both have nonzero st_size. -/
def checkId (files : List DirEntry) (i : Nat) : Bool :=
  match files.filter (fun f => f.1 = rawNameOf i),
        files.filter (fun f => f.1 = metaNameOf i) with
  | [], _ => false
  | _ :: _, [] => false
  | r :: _, m :: _ => decide (r.2 ≠ 0) && decide (m.2 ≠ 0)

/-- CorpusManager._validate_dataset (pipeline.py lines 38-58): raises
FileNotFoundError when the path does not exist, NotADirectoryError when it
is not a directory, EmptyDirectoryError when glob("*.*") matches nothing,
InconsistentDatasetError when the raw and meta counts differ or when, for
some id i in [1, count of raw files], the exact raw or meta file for i is
missing or has zero size.  Returns none when validation succeeds. -/
def validateDir (files : List DirEntry) : Option ValidateError :=
  if (files.filter (fun f => matchesAnyDot f.1)).length = 0 then
    some .emptyDirectory
  else if (rawFiles files).length ≠ (metaFiles files).length then
    some .inconsistentDataset
  else if (List.range' 1 (rawFiles files).length).all (checkId files) then
    none
  else
    some .inconsistentDataset

/-- Dispatch of CorpusManager._validate_dataset on the state of the path:
the two early raises, then the directory checks of validateDir. -/
def validate_dataset : PathState → Option ValidateError
  | .missing => some .fileNotFound
  | .nonDirectory => some .notADirectory
  | .dir files => validateDir files

/-- A raw article as indexed by the corpus manager: its 1-based id and the
names of the two files it is read from. -/
structure RawArticle where
  articleId : Nat
  rawFile : String
  metaFile : String
deriving DecidableEq, Repr

/-- Modelled from the spec: CorpusManager._scan_dataset / get_articles are
declared in pipeline.py (lines 60-68) but their bodies hold only
docstrings.  The storage is modelled from the specification sentence
"After successful validation it exposes get_articles() ->
mapping<id, RawArticle> covering ids 1..N contiguously, where N is the
number of valid raw/meta pairs": one entry per id from 1 to the number of
files matched by glob("*_raw.txt"). -/
def get_articles (files : List DirEntry) : List (Nat × RawArticle) :=
  (List.range' 1 (rawFiles files).length).map
    (fun i => (i, { articleId := i, rawFile := rawNameOf i, metaFile := metaNameOf i }))

/-- The closed set of UD POS tags (spec section 4.2). -/
def udPosTags : List String :=
  ["NOUN", "VERB", "ADJ", "ADV", "PRON", "ADP", "NUM", "CCONJ", "SCONJ",
   "PART", "INTJ", "PUNCT", "SYM", "X", "AUX", "DET"]

/-- Modelled from the spec: the declarative Mystem POS mapping table
(source tag -> UD tag) required by spec section 4.2 for Strategy A;
MystemTagConverter.convert_pos in pipeline.py (lines 149-152) is an
unimplemented stub. -/
def mystemPosMapping : List (String × String) :=
  [("A", "ADJ"), ("ADV", "ADV"), ("ADVPRO", "ADV"), ("ANUM", "ADJ"),
   ("APRO", "PRON"), ("COM", "NOUN"), ("CONJ", "CCONJ"), ("INTJ", "INTJ"),
   ("NUM", "NUM"), ("PART", "PART"), ("PR", "ADP"), ("S", "NOUN"),
   ("SPRO", "PRON"), ("V", "VERB")]

/-- Modelled from the spec: the declarative Mystem morphological-category
mapping table (source grammeme -> UD feature key and value). -/
def mystemFeatureMapping : List (String × (String × String)) :=
  [("nom", ("Case", "Nom")), ("gen", ("Case", "Gen")), ("dat", ("Case", "Dat")),
   ("acc", ("Case", "Acc")), ("ins", ("Case", "Ins")), ("loc", ("Case", "Loc")),
   ("masc", ("Gender", "Masc")), ("fem", ("Gender", "Fem")), ("neut", ("Gender", "Neut")),
   ("sing", ("Number", "Sing")), ("plur", ("Number", "Plur")),
   ("anim", ("Animacy", "Anim")), ("inan", ("Animacy", "Inan")),
   ("praes", ("Tense", "Pres")), ("praet", ("Tense", "Past"))]

/-- Split a character list at every occurrence of the separator — the
semantics of str.split with a one-character separator: the empty input
yields one empty field, and the result always has one more field than
there are separator occurrences. -/
def splitOnChar (sep : Char) : List Char → List (List Char)
  | [] => [[]]
  | c :: rest =>
    match splitOnChar sep rest with
    | [] => [[c]]
    | x :: xs => if c = sep then [] :: x :: xs else (c :: x) :: xs

/-- Strategy A input shape (spec section 4.2): categories separated by a
comma, compound tags separated by an equality sign.  This splits a Mystem
tag string into its atomic categories. -/
def mystemCategories (tags : String) : List String :=
  ((splitOnChar ',' tags.data).flatMap (splitOnChar '=')).map (fun cs => String.mk cs)

/-- The POS marker of a Mystem tag string: the category before the first
delimiter. -/
def mystemPosMarker (tags : String) : String :=
  (mystemCategories tags).headD ""

/-- Modelled from the spec: MystemTagConverter.convert_pos — look the POS
marker up in the declarative table and degrade to "X" on an unrecognized
source tag (spec sections 4.2 and 7). -/
def mystem_convert_pos (tags : String) : String :=
  ((mystemPosMapping.find? (fun p => p.1 = mystemPosMarker tags)).map Prod.snd).getD "X"

/-- UD feature pairs contributed by a list of source categories: each
category that the table maps is translated, the rest are dropped. -/
def mystemFeaturePairs (tags : String) : List (String × String) :=
  (mystemCategories tags).filterMap
    (fun c => (mystemFeatureMapping.find? (fun p => p.1 = c)).map Prod.snd)

/-- Ordering of UD feature pairs: alphabetically by feature key. -/
def featureKeyLE (a b : String × String) : Prop := a.1 ≤ b.1

instance : DecidableRel featureKeyLE := fun a b => inferInstanceAs (Decidable (a.1 ≤ b.1))

instance : IsTotal (String × String) featureKeyLE := ⟨fun a b => le_total a.1 b.1⟩

instance : IsTrans (String × String) featureKeyLE := ⟨fun _ _ _ h h' => le_trans h h'⟩

/-- Sort UD feature pairs alphabetically by key. -/
def sortFeaturePairs (ps : List (String × String)) : List (String × String) :=
  List.insertionSort featureKeyLE ps

/-- Render one UD feature pair as "Key=Value". -/
def renderFeaturePair (p : String × String) : String :=
  p.1 ++ "=" ++ p.2

/-- Join rendered feature pairs with the "|" separator; empty input renders
as the empty string. -/
def joinWithBar : List String → String
  | [] => ""
  | [x] => x
  | x :: y :: rest => x ++ "|" ++ joinWithBar (y :: rest)

/-- Modelled from the spec: MystemTagConverter.convert_morphological_tags —
map the categories through the declarative table, order the obtained
"Key=Value" pairs alphabetically by key and join them with "|"
(spec section 4.2); the stub is pipeline.py lines 144-147. -/
def mystem_convert_morphological_tags (tags : String) : String :=
  joinWithBar ((sortFeaturePairs (mystemFeaturePairs tags)).map renderFeaturePair)

/-- Strategy B input shape (spec section 4.2): a structured tag object
exposing grammeme accessors, each possibly absent. -/
structure OpencorporaTag where
  pos : Option String := none
  case' : Option String := none
  gender : Option String := none
  number : Option String := none
  tense : Option String := none
  animacy : Option String := none
deriving DecidableEq, Repr

/-- Modelled from the spec: the declarative OpenCorpora POS mapping table
(source tag -> UD tag); OpenCorporaTagConverter.convert_pos in pipeline.py
(lines 160-163) is an unimplemented stub. -/
def openCorporaPosMapping : List (String × String) :=
  [("NOUN", "NOUN"), ("VERB", "VERB"), ("INFN", "VERB"), ("PRTF", "VERB"),
   ("PRTS", "VERB"), ("GRND", "VERB"), ("ADJF", "ADJ"), ("ADJS", "ADJ"),
   ("COMP", "ADV"), ("ADVB", "ADV"), ("NPRO", "PRON"), ("PREP", "ADP"),
   ("NUMR", "NUM"), ("CONJ", "CCONJ"), ("PRCL", "PART"), ("INTJ", "INTJ"),
   ("PNCT", "PUNCT")]

/-- Modelled from the spec: the declarative OpenCorpora grammeme mapping
table (source grammeme -> UD feature key and value). -/
def openCorporaFeatureMapping : List (String × (String × String)) :=
  [("nomn", ("Case", "Nom")), ("gent", ("Case", "Gen")), ("datv", ("Case", "Dat")),
   ("accs", ("Case", "Acc")), ("ablt", ("Case", "Ins")), ("loct", ("Case", "Loc")),
   ("masc", ("Gender", "Masc")), ("femn", ("Gender", "Fem")), ("neut", ("Gender", "Neut")),
   ("sing", ("Number", "Sing")), ("plur", ("Number", "Plur")),
   ("anim", ("Animacy", "Anim")), ("inan", ("Animacy", "Inan")),
   ("pres", ("Tense", "Pres")), ("past", ("Tense", "Past")), ("futr", ("Tense", "Fut"))]

/-- Modelled from the spec: OpenCorporaTagConverter.convert_pos — look the
POS grammeme up in the declarative table and degrade to "X" on an
unrecognized source tag. -/
def opencorpora_convert_pos (tag : OpencorporaTag) : String :=
  ((openCorporaPosMapping.find? (fun p => p.1 = tag.pos.getD "")).map Prod.snd).getD "X"

/-- All grammemes carried by a structured OpenCorpora tag. -/
def openCorporaGrammemes (tag : OpencorporaTag) : List String :=
  [tag.case', tag.gender, tag.number, tag.tense, tag.animacy].filterMap id

/-- UD feature pairs contributed by an OpenCorpora tag. -/
def openCorporaFeaturePairs (tag : OpencorporaTag) : List (String × String) :=
  (openCorporaGrammemes tag).filterMap
    (fun c => (openCorporaFeatureMapping.find? (fun p => p.1 = c)).map Prod.snd)

/-- Modelled from the spec: OpenCorporaTagConverter.convert_morphological_tags
(pipeline.py lines 165-168, an unimplemented stub): map the grammemes
through the declarative table, order the pairs alphabetically by key and
join with "|". -/
def opencorpora_convert_morphological_tags (tag : OpencorporaTag) : String :=
  joinWithBar ((sortFeaturePairs (openCorporaFeaturePairs tag)).map renderFeaturePair)

/-- MorphologicalTokenDTO (pipeline.py lines 71-79): lemma, UD POS and UD
feature string, defaulting to empty strings when unset. -/
structure MorphologicalTokenDTO where
  lemma' : String := ""
  pos : String := ""
  tags : String := ""
deriving DecidableEq, Repr

/-- ConlluToken (pipeline.py lines 82-110): the surface text, the 1-based
position of the token inside its sentence, and the attached morphological
parameters. -/
structure ConlluToken where
  text : String
  position : Nat
  morph : MorphologicalTokenDTO := {}
deriving DecidableEq, Repr

/-- FEATS column content: the UD feature string, or the placeholder when
the token carries no features. -/
def featsColumn (tags : String) : String :=
  if tags = "" then "_" else tags

/-- Modelled from the spec: the ten CONLL-U columns of one token line, in
the order ID, FORM, LEMMA, UPOS, XPOS, FEATS, HEAD, DEPREL, DEPS, MISC
(spec section 4.3); ConlluToken.get_conllu_text in pipeline.py
(lines 102-105) is an unimplemented stub.  XPOS, HEAD, DEPREL, DEPS and
MISC are always the placeholder; with include_morphological_tags false,
LEMMA, UPOS and FEATS are also rendered as the placeholder. -/
def conlluColumns (t : ConlluToken) (include_morphological_tags : Bool) : List String :=
  if include_morphological_tags then
    [toString t.position, t.text, t.morph.lemma', t.morph.pos, "_",
     featsColumn t.morph.tags, "_", "_", "_", "_"]
  else
    [toString t.position, t.text, "_", "_", "_", "_", "_", "_", "_", "_"]

/-- Modelled from the spec: ConlluToken.get_conllu_text — the ten columns
joined by tabs into one CONLL-U token line. -/
def get_conllu_text (t : ConlluToken) (include_morphological_tags : Bool) : String :=
  String.intercalate "\t" (conlluColumns t include_morphological_tags)

/-- An article as consumed by the pipeline run: its id and its raw text. -/
structure PipelineArticle where
  articleId : Nat
  text : String
deriving DecidableEq, Repr

/-- Output directory state: what content each file name holds, if any. -/
def FileStore := String → Option String

/-- Writing one file: the named file now holds exactly the new content,
every other file is untouched (an existing file is overwritten). -/
def writeFile (fs : FileStore) (name content : String) : FileStore :=
  fun n => if n = name then some content else fs n

/-- Writing a batch of files in order. -/
def writeAll (fs : FileStore) : List (String × String) → FileStore
  | [] => fs
  | (name, content) :: rest => writeAll (writeFile fs name content) rest

/-- Per-article output file name for the CONLL-U artifact, keyed by the
article id (spec section 6). -/
def conlluFileName (i : Nat) : String := toString i ++ "_sentences.conllu"

/-- Per-article output file name for the cleaned-text artifact, keyed by
the article id (spec section 6). -/
def cleanedFileName (i : Nat) : String := toString i ++ "_cleaned.txt"

/-- Modelled from the spec: the files one article contributes in a run —
one CONLL-U file and one cleaned-text file, both named by the article id,
with contents a pure function of the article text
(MorphologicalAnalysisPipeline.run in pipeline.py, lines 186-189, is an
unimplemented stub).  The two content transformers are passed in as
parameters: the spec leaves the sentence-splitting heuristic open, and
nothing below depends on it. -/
def articleOutputs (render : String → String) (clean : String → String)
    (a : PipelineArticle) : List (String × String) :=
  [(conlluFileName a.articleId, render a.text),
   (cleanedFileName a.articleId, clean a.text)]

/-- Modelled from the spec: MorphologicalAnalysisPipeline.run — iterate the
articles in ascending id order and write each article's outputs into the
output directory, overwriting what is there. -/
def runPipeline (render : String → String) (clean : String → String)
    (articles : List PipelineArticle) (fs : FileStore) : FileStore :=
  writeAll fs (articles.flatMap (articleOutputs render clean))

/-- Python dynamic values, as far as the scrapper configuration needs them:
json.load yields ints, bools, strings, lists, dicts or null.  In Python,
bool is a subclass of int, so isinstance(x, int) accepts both pyInt and
pyBool; that is reflected in isInstInt below. -/
inductive PyVal where
  | pyInt (n : Int) : PyVal
  | pyBool (b : Bool) : PyVal
  | pyStr (s : String) : PyVal
  | pyList (xs : List PyVal) : PyVal
  | pyDictVal : PyVal
  | pyNone : PyVal

/-- isinstance(x, int) — true for ints and for bools (Python bool is a
subclass of int). -/
def isInstInt : PyVal → Bool
  | .pyInt _ => true
  | .pyBool _ => true
  | _ => false

/-- The integer value of a Python int-like value (True counts as 1 and
False as 0); 0 for the rest (unused there: the validation only reads the
value after isInstInt holds). -/
def intValue : PyVal → Int
  | .pyInt n => n
  | .pyBool b => if b then 1 else 0
  | _ => 0

/-- isinstance(x, str). -/
def isInstStr : PyVal → Bool
  | .pyStr _ => true
  | _ => false

/-- isinstance(x, bool). -/
def isInstBool : PyVal → Bool
  | .pyBool _ => true
  | _ => false

/-- isinstance(x, dict). -/
def isInstDict : PyVal → Bool
  | .pyDictVal => true
  | _ => false

/-- isinstance(x, list). -/
def isInstList : PyVal → Bool
  | .pyList _ => true
  | _ => false

/-- Whether one list of characters occurs inside another. -/
def containsSeq (s pat : List Char) : Bool :=
  decide (pat <:+: s)

/-- re.search with the pattern "https?://(www.)?" succeeds exactly when the
string contains "http://" or "https://": the optional group can always
match empty, so only the mandatory part constrains the input. -/
def matchesSeedUrlPattern (s : String) : Bool :=
  containsSeq s.data "http://".data || containsSeq s.data "https://".data

/-- The configuration fields of ConfigDTO, still dynamically typed: the
validation itself performs the isinstance checks. -/
structure ConfigDTO where
  seed_urls : PyVal
  total_articles : PyVal
  headers : PyVal
  encoding : PyVal
  timeout : PyVal
  should_verify_certificate : PyVal
  headless_mode : PyVal

/-- Errors raised by Config._validate_config_content. -/
inductive ConfigError where
  | incorrectSeedURL : ConfigError
  | incorrectNumberOfArticles : ConfigError
  | numberOfArticlesOutOfRange : ConfigError
  | incorrectHeaders : ConfigError
  | incorrectEncoding : ConfigError
  | incorrectTimeout : ConfigError
  | incorrectVerify : ConfigError
deriving DecidableEq, Repr

/-- The seed-urls check of scrapper.py lines 101-103: a list, of strings,
each matched by the seed-url regex. -/
def seedUrlsOk (v : PyVal) : Bool :=
  match v with
  | .pyList xs =>
    xs.all (fun u => isInstStr u) &&
      xs.all (fun u => match u with | .pyStr s => matchesSeedUrlPattern s | _ => false)
  | _ => false

/-- The number-of-articles check of scrapper.py lines 104-105. -/
def numArticlesOk (v : PyVal) : Bool :=
  isInstInt v && decide (1 ≤ intValue v)

/-- The timeout check of scrapper.py lines 112-114: an int (in the Python
sense) strictly between the two limits. -/
def timeoutOk (lower upper : Int) (v : PyVal) : Bool :=
  isInstInt v && decide (lower < intValue v) && decide (intValue v < upper)

/-- Config._validate_config_content (scrapper.py lines 96-116), with the
limits NUM_ARTICLES_UPPER_LIMIT, TIMEOUT_LOWER_LIMIT and
TIMEOUT_UPPER_LIMIT (imported there from core_utils.constants) kept as
parameters.  The checks run in source order and the first failing check
determines the raised error; none means construction succeeds. -/
def validate_config_content (numUpper lower upper : Int) (c : ConfigDTO) :
    Option ConfigError :=
  if ¬ seedUrlsOk c.seed_urls then some .incorrectSeedURL
  else if ¬ numArticlesOk c.total_articles then some .incorrectNumberOfArticles
  else if numUpper < intValue c.total_articles then some .numberOfArticlesOutOfRange
  else if ¬ isInstDict c.headers then some .incorrectHeaders
  else if ¬ isInstStr c.encoding then some .incorrectEncoding
  else if ¬ timeoutOk lower upper c.timeout then some .incorrectTimeout
  else if ¬ (isInstBool c.should_verify_certificate && isInstBool c.headless_mode) then
    some .incorrectVerify
  else none

/-- The article ids assigned by the scrapper entry point (scrapper.py
lines 295-299): for i, article_url in enumerate(crawler.urls) passes i as
article_id, so the i-th crawled url (counting from zero) gets id i. -/
def assignedIds (urls : List String) : List Nat :=
  (urls.enum).map Prod.fst

/-! ## Helper lemmas -/

lemma dot_of_rawPattern {name : String} (h : matchesRawPattern name = true) :
    matchesAnyDot name = true := by
  have hs : "_raw.txt".data <:+ name.data := of_decide_eq_true h
  exact decide_eq_true (List.IsSuffix.mem (by decide) hs)

lemma dot_of_metaPattern {name : String} (h : matchesMetaPattern name = true) :
    matchesAnyDot name = true := by
  have hs : "_meta.json".data <:+ name.data := of_decide_eq_true h
  exact decide_eq_true (List.IsSuffix.mem (by decide) hs)

lemma dotCount_ne_zero_of_mem {files : List DirEntry} {f : DirEntry}
    (hf : f ∈ files) (hdot : matchesAnyDot f.1 = true) :
    (files.filter (fun x => matchesAnyDot x.1)).length ≠ 0 := by
  have hmem : f ∈ files.filter (fun x => matchesAnyDot x.1) :=
    List.mem_filter.mpr ⟨hf, hdot⟩
  have : files.filter (fun x => matchesAnyDot x.1) ≠ [] := List.ne_nil_of_mem hmem
  simpa [List.length_eq_zero] using this

lemma rawFiles_mem_dot {files : List DirEntry} (h : rawFiles files ≠ []) :
    (files.filter (fun x => matchesAnyDot x.1)).length ≠ 0 := by
  obtain ⟨f, hf⟩ := List.exists_mem_of_ne_nil _ h
  have hsplit := List.mem_filter.mp hf
  exact dotCount_ne_zero_of_mem hsplit.1 (dot_of_rawPattern hsplit.2)

lemma metaFiles_mem_dot {files : List DirEntry} (h : metaFiles files ≠ []) :
    (files.filter (fun x => matchesAnyDot x.1)).length ≠ 0 := by
  obtain ⟨f, hf⟩ := List.exists_mem_of_ne_nil _ h
  have hsplit := List.mem_filter.mp hf
  exact dotCount_ne_zero_of_mem hsplit.1 (dot_of_metaPattern hsplit.2)

/-! ## C1 -/

/-- C1: on an existing directory, whenever the number of files matched by
glob("*_raw.txt") differs from the number matched by glob("*_meta.json"),
or some id i in [1, N] (N the raw count) lacks its exact raw or meta file
or one of them has zero size, CorpusManager construction raises
InconsistentDatasetError.  Deleting one meta file of a consistent corpus
while its raw counterpart remains makes the two counts differ, so it is an
instance of the first disjunct (and symmetrically for a deleted raw). -/
theorem c1_validate_inconsistent (files : List DirEntry)
    (h : (rawFiles files).length ≠ (metaFiles files).length ∨
         ∃ i, 1 ≤ i ∧ i ≤ (rawFiles files).length ∧ checkId files i = false) :
    validate_dataset (.dir files) = some .inconsistentDataset := by
  have hdot : (files.filter (fun x => matchesAnyDot x.1)).length ≠ 0 := by
    rcases h with hne | ⟨i, h1, h2, _⟩
    · by_cases hr : rawFiles files = []
      · refine metaFiles_mem_dot (fun hm => hne ?_)
        rw [hr, hm]
      · exact rawFiles_mem_dot hr
    · refine rawFiles_mem_dot (fun hr => ?_)
      rw [hr] at h2
      simp only [List.length_nil, Nat.le_zero] at h2
      omega
  show validateDir files = some .inconsistentDataset
  unfold validateDir
  rw [if_neg hdot]
  by_cases hc : (rawFiles files).length ≠ (metaFiles files).length
  · rw [if_pos hc]
  · rw [if_neg hc]
    rcases h with hne | ⟨i, h1, h2, hbad⟩
    · exact absurd hne hc
    · have hmem : i ∈ List.range' 1 (rawFiles files).length :=
        List.mem_range'_1.mpr ⟨h1, by omega⟩
      have hnall : ¬ (List.range' 1 (rawFiles files).length).all (checkId files) = true := by
        intro hall
        have := List.all_eq_true.mp hall i hmem
        rw [hbad] at this
        exact Bool.false_ne_true this
      rw [if_neg hnall]

/-- C1 witness: a directory holding only a nonempty raw file for id 1 — as
after deleting the meta counterpart — has one raw file and zero meta
files, and construction raises InconsistentDatasetError on it. -/
theorem c1_witness :
    (rawFiles [("1_raw.txt", 5)]).length ≠ (metaFiles [("1_raw.txt", 5)]).length ∧
    validate_dataset (.dir [("1_raw.txt", 5)]) = some .inconsistentDataset :=
  ⟨by decide, c1_validate_inconsistent [("1_raw.txt", 5)] (Or.inl (by decide))⟩

/-! ## C2 -/

/-- C2 counterexample: on a nonexistent path, CorpusManager construction
raises the Python builtin FileNotFoundError (pipeline.py line 43), which
is not the DirectoryNotFoundError named by the specification — no
DirectoryNotFoundError is defined or raised anywhere in the source. -/
theorem c2_counterexample :
    validate_dataset .missing = some .fileNotFound ∧
    validate_dataset .missing ≠ some .directoryNotFound := by
  exact ⟨rfl, by decide⟩

/-- C2 amended: for every path that does not exist on the filesystem,
CorpusManager construction fails by raising the builtin
FileNotFoundError. -/
theorem c2_amended_fileNotFound :
    validate_dataset .missing = some .fileNotFound := rfl

/-! ## C3 -/

/-- C3 counterexample: a directory holding only the file "junk.dat" — a
name with a dot that matches glob("*.*") but not the expected naming
scheme — does not raise EmptyDirectoryError; construction passes
validation entirely, because glob("*.*") is nonempty and the raw and meta
counts are both zero. -/
theorem c3_counterexample :
    rawFiles [("junk.dat", 3)] = [] ∧
    metaFiles [("junk.dat", 3)] = [] ∧
    validate_dataset (.dir [("junk.dat", 3)]) ≠ some .emptyDirectory ∧
    validate_dataset (.dir [("junk.dat", 3)]) = none := by
  refine ⟨by decide, by decide, ?_, ?_⟩ <;> decide

/-- C3 amended: CorpusManager construction raises EmptyDirectoryError
exactly when the existing directory contains no entry whose name has a dot
in it (the files matched by glob("*.*")); whether any entry matches the
expected naming scheme is irrelevant to this check. -/
theorem c3_amended_emptyDirectory (files : List DirEntry) :
    validate_dataset (.dir files) = some .emptyDirectory ↔
      (files.filter (fun f => matchesAnyDot f.1)).length = 0 := by
  show validateDir files = some .emptyDirectory ↔ _
  unfold validateDir
  by_cases h : (files.filter (fun f => matchesAnyDot f.1)).length = 0
  · rw [if_pos h]
    simp [h]
  · rw [if_neg h]
    constructor
    · intro hcontra
      by_cases hc : (rawFiles files).length ≠ (metaFiles files).length
      · rw [if_pos hc] at hcontra
        simp at hcontra
      · rw [if_neg hc] at hcontra
        by_cases ha : (List.range' 1 (rawFiles files).length).all (checkId files) = true
        · rw [if_pos ha] at hcontra
          simp at hcontra
        · rw [if_neg ha] at hcontra
          simp at hcontra
    · intro hh
      exact absurd hh h

/-! ## C4 -/

/-- C4: when validation of an existing directory succeeds, the article
mapping is keyed exactly by the contiguous ids 1..N, where N is the number
of files matched by glob("*_raw.txt"), and every key survived the per-id
check of the validator: its exact raw and meta files are present with
nonzero size. -/
theorem c4_get_articles_contiguous (files : List DirEntry)
    (h : validate_dataset (.dir files) = none) :
    ((get_articles files).map Prod.fst = List.range' 1 (rawFiles files).length) ∧
    (∀ i, i ∈ (get_articles files).map Prod.fst ↔
       1 ≤ i ∧ i ≤ (rawFiles files).length) ∧
    (∀ i, i ∈ (get_articles files).map Prod.fst → checkId files i = true) := by
  have hkeys : (get_articles files).map Prod.fst =
      List.range' 1 (rawFiles files).length := by
    simp [get_articles, List.map_map, Function.comp_def]
  have hall : (List.range' 1 (rawFiles files).length).all (checkId files) = true := by
    have h' : validateDir files = none := h
    unfold validateDir at h'
    by_cases h1 : (files.filter (fun f => matchesAnyDot f.1)).length = 0
    · rw [if_pos h1] at h'
      simp at h'
    · rw [if_neg h1] at h'
      by_cases h2 : (rawFiles files).length ≠ (metaFiles files).length
      · rw [if_pos h2] at h'
        simp at h'
      · rw [if_neg h2] at h'
        by_cases h3 : (List.range' 1 (rawFiles files).length).all (checkId files) = true
        · exact h3
        · rw [if_neg h3] at h'
          simp at h'
  refine ⟨hkeys, ?_, ?_⟩
  · intro i
    rw [hkeys, List.mem_range'_1]
    omega
  · intro i hi
    rw [hkeys] at hi
    exact List.all_eq_true.mp hall i hi

/-- C4 witness: a one-article corpus with both files nonempty validates,
and the article mapping has exactly the key 1. -/
theorem c4_witness :
    validate_dataset (.dir [("1_raw.txt", 4), ("1_meta.json", 2)]) = none ∧
    (get_articles [("1_raw.txt", 4), ("1_meta.json", 2)]).map Prod.fst = [1] :=
  ⟨by decide,
   (c4_get_articles_contiguous [("1_raw.txt", 4), ("1_meta.json", 2)]
      (by decide)).1.trans (by decide)⟩

/-! ## C5 -/

lemma mystemPosMapping_values : ∀ p ∈ mystemPosMapping, p.2 ∈ udPosTags := by decide

lemma openCorporaPosMapping_values : ∀ p ∈ openCorporaPosMapping, p.2 ∈ udPosTags := by
  decide

/-- C5: both converter strategies are total on arbitrary input — an input
whose POS marker the mapping table does not hold yields the UD tag "X" —
and every result, recognized or not, lies in the fixed closed set of UD
POS tags. -/
theorem c5_convert_pos_total :
    (∀ t : String,
       mystemPosMapping.find? (fun p => p.1 = mystemPosMarker t) = none →
       mystem_convert_pos t = "X") ∧
    (∀ tag : OpencorporaTag,
       openCorporaPosMapping.find? (fun p => p.1 = tag.pos.getD "") = none →
       opencorpora_convert_pos tag = "X") ∧
    (∀ t : String, mystem_convert_pos t ∈ udPosTags) ∧
    (∀ tag : OpencorporaTag, opencorpora_convert_pos tag ∈ udPosTags) := by
  refine ⟨?_, ?_, ?_, ?_⟩
  · intro t ht
    unfold mystem_convert_pos
    rw [ht]
    rfl
  · intro tag ht
    unfold opencorpora_convert_pos
    rw [ht]
    rfl
  · intro t
    unfold mystem_convert_pos
    cases hf : mystemPosMapping.find? (fun p => p.1 = mystemPosMarker t) with
    | none =>
      simp only [Option.map_none', Option.getD_none]
      decide
    | some p =>
      simp only [Option.map_some', Option.getD_some]
      exact mystemPosMapping_values p (List.mem_of_find?_eq_some hf)
  · intro tag
    unfold opencorpora_convert_pos
    cases hf : openCorporaPosMapping.find? (fun p => p.1 = tag.pos.getD "") with
    | none =>
      simp only [Option.map_none', Option.getD_none]
      decide
    | some p =>
      simp only [Option.map_some', Option.getD_some]
      exact openCorporaPosMapping_values p (List.mem_of_find?_eq_some hf)

/-- C5 witness: the unrecognized tag "ZZZ" maps to "X" under both
strategies without raising, and a recognized Mystem tag stays inside the
closed UD set. -/
theorem c5_witness :
    mystem_convert_pos "ZZZ" = "X" ∧
    opencorpora_convert_pos { pos := some "ZZZ" } = "X" ∧
    mystem_convert_pos "S,persn,masc,sing,nom" ∈ udPosTags :=
  ⟨c5_convert_pos_total.1 "ZZZ" (by decide),
   c5_convert_pos_total.2.1 { pos := some "ZZZ" } (by decide),
   c5_convert_pos_total.2.2.1 "S,persn,masc,sing,nom"⟩

/-! ## C6 -/

lemma sortFeaturePairs_sorted (ps : List (String × String)) :
    ((sortFeaturePairs ps).map Prod.fst).Sorted (· ≤ ·) := by
  have h := List.sorted_insertionSort featureKeyLE ps
  exact List.pairwise_map.mpr h

lemma renderFeaturePair_length (p : String × String) :
    1 ≤ (renderFeaturePair p).length := by
  unfold renderFeaturePair
  rw [String.length_append, String.length_append]
  have h : ("=" : String).length = 1 := rfl
  omega

lemma joinWithBar_length {l : List String} (hl : ∀ x ∈ l, 1 ≤ x.length)
    (hne : l ≠ []) : 1 ≤ (joinWithBar l).length := by
  match l with
  | [] => exact absurd rfl hne
  | [x] => exact hl x (by simp)
  | x :: y :: rest =>
    show 1 ≤ (x ++ "|" ++ joinWithBar (y :: rest)).length
    rw [String.length_append, String.length_append]
    have hx := hl x (by simp)
    omega

lemma renderedFeatures_empty_iff (ps : List (String × String)) :
    joinWithBar ((sortFeaturePairs ps).map renderFeaturePair) = "" ↔ ps = [] := by
  constructor
  · intro h
    by_contra hne
    have hlen : (sortFeaturePairs ps).length = ps.length :=
      List.length_insertionSort _ _
    have hsne : (sortFeaturePairs ps).map renderFeaturePair ≠ [] := by
      intro hmap
      rw [List.map_eq_nil_iff] at hmap
      apply hne
      have hl := congrArg List.length hmap
      rw [hlen] at hl
      exact List.length_eq_zero.mp hl
    have h1 : 1 ≤ (joinWithBar ((sortFeaturePairs ps).map renderFeaturePair)).length := by
      refine joinWithBar_length (fun x hx => ?_) hsne
      obtain ⟨p, _, rfl⟩ := List.mem_map.mp hx
      exact renderFeaturePair_length p
    rw [h] at h1
    exact absurd h1 (by decide)
  · intro h
    subst h
    rfl

/-- C6: for both converter strategies, the UD feature string is the
"Key=Value" pairs ordered alphabetically by key joined with "|", and it is
empty exactly when the input carries no mappable morphological feature. -/
theorem c6_convert_morphological_tags :
    (∀ t : String,
       ((sortFeaturePairs (mystemFeaturePairs t)).map Prod.fst).Sorted (· ≤ ·) ∧
       mystem_convert_morphological_tags t =
         joinWithBar ((sortFeaturePairs (mystemFeaturePairs t)).map renderFeaturePair) ∧
       (mystem_convert_morphological_tags t = "" ↔ mystemFeaturePairs t = [])) ∧
    (∀ tag : OpencorporaTag,
       ((sortFeaturePairs (openCorporaFeaturePairs tag)).map Prod.fst).Sorted (· ≤ ·) ∧
       opencorpora_convert_morphological_tags tag =
         joinWithBar ((sortFeaturePairs (openCorporaFeaturePairs tag)).map renderFeaturePair) ∧
       (opencorpora_convert_morphological_tags tag = "" ↔
          openCorporaFeaturePairs tag = [])) := by
  constructor
  · intro t
    exact ⟨sortFeaturePairs_sorted _, rfl, renderedFeatures_empty_iff _⟩
  · intro tag
    exact ⟨sortFeaturePairs_sorted _, rfl, renderedFeatures_empty_iff _⟩

/-! ## C7 -/

/-- C7: a token renders as the ten CONLL-U columns joined by tabs, in the
order ID, FORM, LEMMA, UPOS, XPOS, FEATS, HEAD, DEPREL, DEPS, MISC: the
column list always has exactly ten entries, ID and FORM hold the token
position and surface text, XPOS, HEAD, DEPREL, DEPS and MISC are always
the placeholder, and with include_morphological_tags false the LEMMA, UPOS
and FEATS columns are the placeholder as well. -/
theorem c7_conllu_token_line (t : ConlluToken) (b : Bool) :
    (conlluColumns t b).length = 10 ∧
    get_conllu_text t b = String.intercalate "\t" (conlluColumns t b) ∧
    (conlluColumns t b)[0]? = some (toString t.position) ∧
    (conlluColumns t b)[1]? = some t.text ∧
    (conlluColumns t b)[4]? = some "_" ∧
    (conlluColumns t b)[6]? = some "_" ∧
    (conlluColumns t b)[7]? = some "_" ∧
    (conlluColumns t b)[8]? = some "_" ∧
    (conlluColumns t b)[9]? = some "_" ∧
    (conlluColumns t false)[2]? = some "_" ∧
    (conlluColumns t false)[3]? = some "_" ∧
    (conlluColumns t false)[5]? = some "_" := by
  cases b <;>
    exact ⟨rfl, rfl, rfl, rfl, rfl, rfl, rfl, rfl, rfl, rfl, rfl, rfl⟩

/-! ## C8 -/

/-- The last content written for a file name in a batch, if any. -/
def lastWrite : List (String × String) → String → Option String
  | [], _ => none
  | (name, content) :: rest, n =>
    match lastWrite rest n with
    | some c => some c
    | none => if n = name then some content else none

/-- Newer layer of writes over an older store value. -/
def overlay (newer older : Option String) : Option String :=
  match newer with
  | some c => some c
  | none => older

lemma writeAll_apply (L : List (String × String)) :
    ∀ (fs : FileStore) (n : String),
      writeAll fs L n = overlay (lastWrite L n) (fs n) := by
  induction L with
  | nil =>
    intro fs n
    rfl
  | cons p rest ih =>
    intro fs n
    obtain ⟨name, content⟩ := p
    show writeAll (writeFile fs name content) rest n = _
    rw [ih]
    have hcons : lastWrite ((name, content) :: rest) n =
        overlay (lastWrite rest n) (if n = name then some content else none) := rfl
    rw [hcons]
    cases h : lastWrite rest n with
    | some c => rfl
    | none =>
      show writeFile fs name content n = _
      unfold writeFile
      by_cases hn : n = name <;> simp [hn, overlay]

/-- C8: the pipeline run is a pure function of the input corpus and
overwrites per-article outputs idempotently — running it a second time
over the unchanged corpus leaves every output file byte-identical to what
the first run produced, whatever the output directory held beforehand. -/
theorem c8_run_idempotent (render clean : String → String)
    (articles : List PipelineArticle) (fs : FileStore) :
    runPipeline render clean articles (runPipeline render clean articles fs) =
      runPipeline render clean articles fs := by
  funext n
  unfold runPipeline
  simp only [writeAll_apply]
  cases h : lastWrite (articles.flatMap (articleOutputs render clean)) n with
  | some c => rfl
  | none => rfl

/-! ## C9 -/

/-- C9: the scrapper entry point numbers crawled articles with
enumerate(crawler.urls), which starts at zero — a crawl yielding two
articles assigns the ids 0 and 1, not the 1-based contiguous 1 and 2 the
specification states, and the first id assigned (0) is not a positive
integer. -/
theorem c9_assigned_ids_zero_based :
    assignedIds ["https://ptzgovorit.ru/news/a", "https://ptzgovorit.ru/news/b"] = [0, 1] ∧
    assignedIds ["https://ptzgovorit.ru/news/a", "https://ptzgovorit.ru/news/b"] ≠ [1, 2] ∧
    0 ∈ assignedIds ["https://ptzgovorit.ru/news/a", "https://ptzgovorit.ru/news/b"] ∧
    ¬ 1 ≤ (0 : Nat) := by
  refine ⟨by decide, by decide, by decide, by decide⟩

/-! ## C10 -/

/-- C10: when every configuration check before the timeout check passes,
Config construction raises IncorrectTimeoutError exactly when the timeout
is not an int (in the Python sense) strictly between TIMEOUT_LOWER_LIMIT
and TIMEOUT_UPPER_LIMIT; in particular both boundary values themselves are
rejected with IncorrectTimeoutError. -/
theorem c10_timeout_validation (numUpper lower upper : Int) (c : ConfigDTO)
    (hseed : seedUrlsOk c.seed_urls = true)
    (hnum : numArticlesOk c.total_articles = true)
    (hrange : ¬ numUpper < intValue c.total_articles)
    (hheaders : isInstDict c.headers = true)
    (henc : isInstStr c.encoding = true) :
    (validate_config_content numUpper lower upper c = some .incorrectTimeout ↔
       ¬ timeoutOk lower upper c.timeout = true) ∧
    (c.timeout = .pyInt lower →
       validate_config_content numUpper lower upper c = some .incorrectTimeout) ∧
    (c.timeout = .pyInt upper →
       validate_config_content numUpper lower upper c = some .incorrectTimeout) := by
  have hmain : validate_config_content numUpper lower upper c =
      (if ¬ timeoutOk lower upper c.timeout then some .incorrectTimeout
       else if ¬ (isInstBool c.should_verify_certificate &&
                  isInstBool c.headless_mode) then some .incorrectVerify
       else none) := by
    unfold validate_config_content
    rw [if_neg (by simp [hseed]), if_neg (by simp [hnum]), if_neg hrange,
        if_neg (by simp [hheaders]), if_neg (by simp [henc])]
  have hiff : validate_config_content numUpper lower upper c =
      some .incorrectTimeout ↔ ¬ timeoutOk lower upper c.timeout = true := by
    rw [hmain]
    by_cases ht : timeoutOk lower upper c.timeout = true
    · rw [if_neg (by simp [ht])]
      constructor
      · intro hcontra
        by_cases hv : (isInstBool c.should_verify_certificate &&
            isInstBool c.headless_mode) = true
        · rw [if_neg (by simp [hv])] at hcontra
          simp at hcontra
        · rw [if_pos (by simp [hv])] at hcontra
          simp at hcontra
      · intro hcontra
        exact absurd ht hcontra
    · rw [if_pos ht]
      exact ⟨fun _ => ht, fun _ => rfl⟩
  refine ⟨hiff, ?_, ?_⟩
  · intro hts
    refine hiff.mpr ?_
    rw [hts]
    simp [timeoutOk, isInstInt, intValue]
  · intro hts
    refine hiff.mpr ?_
    rw [hts]
    simp [timeoutOk, isInstInt, intValue]

/-- A concrete configuration whose every field before the timeout is
valid, with the timeout set exactly to the lower limit. -/
def cfgBoundary : ConfigDTO :=
  { seed_urls := .pyList [.pyStr "https://ptzgovorit.ru/news"],
    total_articles := .pyInt 5,
    headers := .pyDictVal,
    encoding := .pyStr "utf-8",
    timeout := .pyInt 0,
    should_verify_certificate := .pyBool true,
    headless_mode := .pyBool false }

/-- C10 witness: with the limits NUM_ARTICLES_UPPER_LIMIT = 150,
TIMEOUT_LOWER_LIMIT = 0 and TIMEOUT_UPPER_LIMIT = 60, a configuration
whose timeout equals the lower boundary value is rejected with
IncorrectTimeoutError. -/
theorem c10_witness :
    validate_config_content 150 0 60 cfgBoundary = some .incorrectTimeout :=
  (c10_timeout_validation 150 0 60 cfgBoundary (by decide) (by decide)
    (by decide) (by decide) (by decide)).2.1 rfl
